import Mathlib

/-!
A shallow embedding of the SmartFridge recipe search engine
(`recipe_search.py`) and its analytics event consumers
(`consumers/event_consumers.py`), with verified properties of both.

Python strings are modelled as Lean `String` (for the matching engine) and
as `List Char` (for the ingredient tokenizer, where the splitting structure
matters); Python floats produced by `round(x, 1)` are modelled as exact
rationals rounded half-to-even, matching the CPython rounding of decimal
halves.
-/

/-- The Python `round` to an integer: round half to even,
modelled exactly over `ℚ`. -/
def roundHalfEven (q : ℚ) : ℤ :=
  if q - ⌊q⌋ < (1 : ℚ) / 2 then ⌊q⌋
  else if (1 : ℚ) / 2 < q - ⌊q⌋ then ⌊q⌋ + 1
  else if ⌊q⌋ % 2 = 0 then ⌊q⌋ else ⌊q⌋ + 1

/-- The Python `round(q, 1)`: round to one decimal place, half to even. -/
def pyRound1 (q : ℚ) : ℚ := (roundHalfEven (q * 10) : ℚ) / 10

example : pyRound1 50 = 50 := by norm_num [pyRound1, roundHalfEven]
example : pyRound1 (625 / 100) = 62 / 10 := by norm_num [pyRound1, roundHalfEven]
example : pyRound1 0 = 0 := by norm_num [pyRound1, roundHalfEven]

/-- The Python `str.lower()` (ASCII case mapping), defined structurally on
the character list so that it evaluates by kernel reduction. -/
def pyLowerStr (s : String) : String := ⟨s.data.map Char.toLower⟩

/-! ## Data model (`recipe_search.py`)

A recipe is a JSON object; fields the code reads with `recipe.get(k, d)`
are modelled as `Option` fields (`none` = key absent), fields read with
`recipe[k]` (`id`, `name`, `ingredients`) are mandatory. -/

structure Recipe where
  id : Int
  name : String
  ingredients : List String
  prep_time : Option Int := none
  cook_time : Option Int := none
  total_time : Option Int := none
  servings : Option Int := none
  skill_level : Option String := none
  cuisine : Option String := none
  dietary_tags : Option (List String) := none
  equipment : Option (List String) := none
deriving DecidableEq, Repr

/-- The `filters` dict of `search_recipes`: each key optional. A present key
with a Python-falsy value (`0`, `""`, `[]`) is `some` of that value. -/
structure Filters where
  max_time : Option Int := none
  skill_level : Option String := none
  dietary_tags : Option (List String) := none
  cuisine : Option String := none
deriving DecidableEq, Repr

/-- Return value of `calculate_match`. -/
structure MatchData where
  percentage : ℚ
  matched : List String
  missing : List String
deriving DecidableEq, Repr

/-- One entry of the `results` list built by `search_recipes`. -/
structure SearchResult where
  id : Int
  name : String
  match_percentage : ℚ
  matched_ingredients : List String
  missing_ingredients : List String
  prep_time : Int
  cook_time : Int
  total_time : Int
  servings : Int
  skill_level : String
  cuisine : String
  dietary_tags : List String
  equipment : List String
deriving DecidableEq, Repr

/-! ## `calculate_match` (recipe_search.py lines 21-48) -/

/-- `calculate_match(recipe_ingredients, user_ingredients)`: lowercases the
recipe ingredients, walks them in order appending each to `matched` or
`missing` according to membership in `user_ingredients`, and computes the
rounded match percentage. -/
def calculate_match (recipe_ingredients user_ingredients : List String) :
    MatchData :=
  let lower_rec_ings := recipe_ingredients.map pyLowerStr
  let mm := lower_rec_ings.foldl
    (fun (p : List String × List String) recipe_ing =>
      if recipe_ing ∈ user_ingredients then (p.1 ++ [recipe_ing], p.2)
      else (p.1, p.2 ++ [recipe_ing]))
    ([], [])
  let total := lower_rec_ings.length
  let match_count := mm.1.length
  let percentage : ℚ :=
    if total > 0 then (match_count : ℚ) / (total : ℚ) * 100 else 0
  { percentage := pyRound1 percentage, matched := mm.1, missing := mm.2 }

/-! ## `passes_filters` (recipe_search.py lines 50-79)

`if not filters: return True` covers `filters=None` and the empty dict;
both are modelled by `none` (a `some` value with every field `none`
behaves identically anyway). Each Python guard
`'k' in filters and filters['k']` is truthiness: key present and value
non-falsy, i.e. `f.k.getD falsy ≠ falsy`. -/

def passes_filters (recipe : Recipe) (filters : Option Filters) : Bool :=
  match filters with
  | none => true
  | some f =>
    if f.max_time.getD 0 ≠ 0 ∧
        recipe.total_time.getD 999 > f.max_time.getD 0 then false
    else if f.skill_level.getD "" ≠ "" ∧
        pyLowerStr (recipe.skill_level.getD "") ≠
          pyLowerStr (f.skill_level.getD "") then false
    else if f.dietary_tags.getD [] ≠ [] ∧
        ¬ (∀ required_tag ∈ (f.dietary_tags.getD []).map pyLowerStr,
            required_tag ∈ (recipe.dietary_tags.getD []).map pyLowerStr)
        then false
    else if f.cuisine.getD "" ≠ "" ∧
        pyLowerStr (recipe.cuisine.getD "") ≠ pyLowerStr (f.cuisine.getD "")
        then false
    else true

/-! ## `search_recipes` (recipe_search.py lines 81-114) -/

/-- The dict appended to `results` for a surviving recipe. -/
def mkSearchResult (recipe : Recipe) (match_data : MatchData) : SearchResult :=
  { id := recipe.id
    name := recipe.name
    match_percentage := match_data.percentage
    matched_ingredients := match_data.matched
    missing_ingredients := match_data.missing
    prep_time := recipe.prep_time.getD 0
    cook_time := recipe.cook_time.getD 0
    total_time := recipe.total_time.getD 0
    servings := recipe.servings.getD 0
    skill_level := recipe.skill_level.getD "unknown"
    cuisine := recipe.cuisine.getD "unknown"
    dietary_tags := recipe.dietary_tags.getD []
    equipment := recipe.equipment.getD [] }

/-- The `results` list as it stands just before the final `results.sort`:
recipes in catalog order, those failing filters or scoring 0 dropped. -/
def matchResults (user_ingredients : List String) (recipes : List Recipe)
    (filters : Option Filters) : List SearchResult :=
  recipes.filterMap (fun recipe =>
    if passes_filters recipe filters then
      let match_data := calculate_match recipe.ingredients user_ingredients
      if match_data.percentage > 0 then some (mkSearchResult recipe match_data)
      else none
    else none)

/-- The final sort of `results` on the match-percentage key with
`reverse=True`: the Python sort is stable and orders by the key
descending. Modelled by the stable `List.mergeSort` with `le a b`
meaning "a may stay before b", i.e. `b.key ≤ a.key`. -/
def resultLe (a b : SearchResult) : Bool :=
  decide (b.match_percentage ≤ a.match_percentage)

/-- `search_recipes(user_ingredients, recipes, filters)`. -/
def search_recipes (user_ingredients : List String) (recipes : List Recipe)
    (filters : Option Filters := none) : List SearchResult :=
  (matchResults user_ingredients recipes filters).mergeSort resultLe

/-! ## `parse_ingredients` (recipe_search.py lines 3-13)

Here a Python `str` is modelled as its character sequence `List Char`, so
that `str.replace`, `str.split(',')` and `str.strip()` can be embedded
structurally. -/

/-- The Python `str.isspace` test on one character, for the characters
`str.strip()` removes (ASCII range). -/
def pyIsSpace (c : Char) : Bool :=
  c = ' ' ∨ c = '\t' ∨ c = '\n' ∨ c = '\x0d' ∨ c = '\x0b' ∨ c = '\x0c'

/-- Python `s.strip()`: drop whitespace at both ends. -/
def pyStrip (s : List Char) : List Char :=
  ((s.dropWhile pyIsSpace).reverse.dropWhile pyIsSpace).reverse

/-- Python `s.lower()` (ASCII case mapping). -/
def pyLower (s : List Char) : List Char := s.map Char.toLower

/-- Python `s.replace(a, b)` for single-character patterns. -/
def pyReplaceChar (a b : Char) (s : List Char) : List Char :=
  s.map (fun c => if c = a then b else c)

/-- Python `s.split(sep)` for a single-character separator: on the empty
string it returns `[""]`, and each separator occurrence starts a new piece. -/
def pySplit (sep : Char) : List Char → List (List Char)
  | [] => [[]]
  | c :: rest =>
    if c = sep then [] :: pySplit sep rest
    else
      match pySplit sep rest with
      | [] => [[c]]
      | piece :: pieces => (c :: piece) :: pieces

/-- `parse_ingredients(raw_input)`: replace newlines by commas, split on
commas, keep the pieces whose strip is non-empty, and return each kept
piece stripped and lowercased. -/
def parse_ingredients (raw_input : List Char) : List (List Char) :=
  let ingredients := pySplit ',' (pyReplaceChar '\n' ',' raw_input)
  (ingredients.filter (fun ing => pyStrip ing ≠ [])).map
    (fun ing => pyLower (pyStrip ing))

/-! ## Analytics event consumers (`consumers/event_consumers.py`)

`_analytics_db` is the state threaded through the handlers; the Python
dict `user_analytics` is modelled as a map `String → Option UserAnalytics`
(`none` = key absent). Each nested handler of `setup_event_consumers`
becomes a state-transformer. -/

/-- One entry of a per-user `recent_searches` list. -/
structure SearchSummary where
  timestamp : Nat
  ingredients : List String
  result_count : Nat
deriving DecidableEq, Repr

/-- A per-user value stored in the `user_analytics` dict of
`_analytics_db`. -/
structure UserAnalytics where
  search_count : Nat
  recent_searches : List SearchSummary
deriving DecidableEq, Repr

/-- The `system_stats` dict of `_analytics_db`. -/
structure SystemStats where
  total_searches : Nat
  total_users_created : Nat
  total_favorites : Nat
deriving DecidableEq, Repr

/-- The whole `_analytics_db`. -/
structure AnalyticsDb where
  user_analytics : String → Option UserAnalytics
  system_stats : SystemStats

/-- The initial `_analytics_db`: no users, all counters 0. -/
def initialAnalyticsDb : AnalyticsDb :=
  { user_analytics := fun _ => none
    system_stats := { total_searches := 0, total_users_created := 0,
                      total_favorites := 0 } }

/-- `on_user_created`: increments `total_users_created` (the rest is
logging). -/
def on_user_created (db : AnalyticsDb) : AnalyticsDb :=
  { db with system_stats :=
      { db.system_stats with
        total_users_created := db.system_stats.total_users_created + 1 } }

/-- `on_recipe_favorited`: increments `total_favorites`. -/
def on_recipe_favorited (db : AnalyticsDb) : AnalyticsDb :=
  { db with system_stats :=
      { db.system_stats with
        total_favorites := db.system_stats.total_favorites + 1 } }

/-- `on_recipe_search_performed`: initializes the user record if absent,
increments its `search_count`, appends the search summary, pops index 0
when the list exceeds 10, and increments `total_searches`. -/
def on_recipe_search_performed (user_id : String) (summary : SearchSummary)
    (db : AnalyticsDb) : AnalyticsDb :=
  let ua := (db.user_analytics user_id).getD
    { search_count := 0, recent_searches := [] }
  let appended := ua.recent_searches ++ [summary]
  let ua' : UserAnalytics :=
    { search_count := ua.search_count + 1
      recent_searches := if appended.length > 10 then appended.tail
                         else appended }
  { user_analytics := fun k =>
      if k = user_id then some ua' else db.user_analytics k
    system_stats :=
      { db.system_stats with
        total_searches := db.system_stats.total_searches + 1 } }

/-- The events whose handlers touch `_analytics_db`; `logOnly` stands for
the five log-only handlers (profile updated, ingredient added/removed,
recipe unfavorited, appliances updated), which mutate nothing. -/
inductive AnalyticsEvent where
  | userCreated
  | recipeFavorited
  | searchPerformed (user_id : String) (summary : SearchSummary)
  | logOnly
deriving DecidableEq, Repr

/-- Dispatch of one published event to its analytics handler. -/
def handle_event (e : AnalyticsEvent) (db : AnalyticsDb) : AnalyticsDb :=
  match e with
  | .userCreated => on_user_created db
  | .recipeFavorited => on_recipe_favorited db
  | .searchPerformed user_id summary =>
      on_recipe_search_performed user_id summary db
  | .logOnly => db

/-- Handle a sequence of published events in order. -/
def run_events (events : List AnalyticsEvent) (db : AnalyticsDb) :
    AnalyticsDb :=
  events.foldl (fun d e => handle_event e d) db

/-- `get_system_analytics()`. -/
def get_system_analytics (db : AnalyticsDb) : SystemStats := db.system_stats

/-- `get_user_analytics(user_id)`: the stored record, or the zero-valued
default for an unknown user. -/
def get_user_analytics (db : AnalyticsDb) (user_id : String) :
    UserAnalytics :=
  (db.user_analytics user_id).getD { search_count := 0, recent_searches := [] }

/-! ## Per-axis filter predicates

Restatements of the four filter axes as independent predicates, used to
express that `passes_filters` is their conjunction. An axis is *active*
when its field is present with a Python-truthy value. -/

/-- `max_time` axis: active iff `max_time` is present and nonzero; passes
iff the recipe `total_time` (default 999) does not exceed it. -/
def maxTimeAxis (recipe : Recipe) (f : Filters) : Bool :=
  match f.max_time with
  | none => true
  | some t => if t = 0 then true else decide (recipe.total_time.getD 999 ≤ t)

/-- `skill_level` axis: case-insensitive exact match, recipe default `""`. -/
def skillAxis (recipe : Recipe) (f : Filters) : Bool :=
  match f.skill_level with
  | none => true
  | some s =>
    if s = "" then true
    else decide (pyLowerStr (recipe.skill_level.getD "") = pyLowerStr s)

/-- `dietary_tags` axis: every required tag must appear case-insensitively
among the recipe tags (default `[]`). -/
def dietAxis (recipe : Recipe) (f : Filters) : Bool :=
  match f.dietary_tags with
  | none => true
  | some tags =>
    if tags = [] then true
    else decide (∀ t ∈ tags,
      pyLowerStr t ∈ (recipe.dietary_tags.getD []).map pyLowerStr)

/-- `cuisine` axis: case-insensitive exact match, recipe default `""`. -/
def cuisineAxis (recipe : Recipe) (f : Filters) : Bool :=
  match f.cuisine with
  | none => true
  | some c =>
    if c = "" then true
    else decide (pyLowerStr (recipe.cuisine.getD "") = pyLowerStr c)

/-- Splitting a raw string at every comma or newline in one pass — the
tokenizer's `replace('\n', ',')` followed by `split(',')` must coincide
with this. -/
def splitCommasNewlines : List Char → List (List Char)
  | [] => [[]]
  | c :: rest =>
    if c = ',' ∨ c = '\n' then [] :: splitCommasNewlines rest
    else
      match splitCommasNewlines rest with
      | [] => [[c]]
      | piece :: pieces => (c :: piece) :: pieces

/-- Whether an event is a `RECIPE_SEARCH_PERFORMED` publication. -/
def isSearchEvent : AnalyticsEvent → Bool
  | .searchPerformed _ _ => true
  | _ => false

/-! ## Helper lemmas: `calculate_match` -/

theorem pyRound1_zero : pyRound1 0 = 0 := by
  norm_num [pyRound1, roundHalfEven]

theorem pyRound1_nonneg {q : ℚ} (hq : 0 ≤ q) : 0 ≤ pyRound1 q := by
  have h0 : (0 : ℤ) ≤ ⌊q * 10⌋ := Int.floor_nonneg.mpr (by positivity)
  unfold pyRound1 roundHalfEven
  split_ifs <;> positivity

theorem match_foldl (user : List String) (l m x : List String) :
    l.foldl
      (fun (p : List String × List String) ing =>
        if ing ∈ user then (p.1 ++ [ing], p.2) else (p.1, p.2 ++ [ing]))
      (m, x)
    = (m ++ l.filter (fun i => decide (i ∈ user)),
       x ++ l.filter (fun i => !decide (i ∈ user))) := by
  induction l generalizing m x with
  | nil => simp
  | cons a l ih =>
    by_cases h : a ∈ user <;>
      simp [List.filter_cons, h, ih, List.append_assoc]

theorem calculate_match_matched (rec user : List String) :
    (calculate_match rec user).matched
      = (rec.map pyLowerStr).filter (fun i => decide (i ∈ user)) := by
  simp [calculate_match, match_foldl]

theorem calculate_match_missing (rec user : List String) :
    (calculate_match rec user).missing
      = (rec.map pyLowerStr).filter (fun i => !decide (i ∈ user)) := by
  simp [calculate_match, match_foldl]

theorem calculate_match_percentage (rec user : List String) :
    (calculate_match rec user).percentage
      = if 0 < rec.length then
          pyRound1 (((calculate_match rec user).matched.length : ℚ)
            / (rec.length : ℚ) * 100)
        else 0 := by
  rw [calculate_match_matched]
  simp only [calculate_match, match_foldl, List.nil_append, List.length_map]
  split_ifs with h
  · rfl
  · exact pyRound1_zero

/-! ## Helper lemmas: `search_recipes` -/

theorem mem_matchResults {x : SearchResult} {user : List String}
    {recipes : List Recipe} {filters : Option Filters} :
    x ∈ matchResults user recipes filters ↔
      ∃ r ∈ recipes, passes_filters r filters = true ∧
        0 < (calculate_match r.ingredients user).percentage ∧
        x = mkSearchResult r (calculate_match r.ingredients user) := by
  simp only [matchResults, List.mem_filterMap]
  constructor
  · rintro ⟨r, hr, hfx⟩
    by_cases hp : passes_filters r filters
    · simp only [hp, if_true] at hfx
      by_cases hq : (calculate_match r.ingredients user).percentage > 0
      · simp only [hq, if_pos] at hfx
        exact ⟨r, hr, hp, hq, (Option.some_injective _ hfx).symm⟩
      · simp [hq] at hfx
    · simp [hp] at hfx
  · rintro ⟨r, hr, hp, hq, rfl⟩
    exact ⟨r, hr, by simp [hp, hq]⟩

/-! ## Claim theorems -/

/-- C2: For every recipe ingredient list and user token set,
`calculate_match` returns `percentage = round(matched/total*100, 1)` when
the recipe has ingredients and `0` when it has none; `matched` and
`missing` are the ordered, duplicate-preserving sublists of the lowercased
recipe ingredients classified by membership in the user token set, and
together they are exactly the lowercased recipe ingredients. -/
theorem calculate_match_spec (rec user : List String) :
    (rec ≠ [] → (calculate_match rec user).percentage
        = pyRound1 (((calculate_match rec user).matched.length : ℚ)
            / (rec.length : ℚ) * 100)) ∧
    (rec = [] → (calculate_match rec user).percentage = 0) ∧
    (calculate_match rec user).matched
        = (rec.map pyLowerStr).filter (fun i => decide (i ∈ user)) ∧
    (calculate_match rec user).missing
        = (rec.map pyLowerStr).filter (fun i => !decide (i ∈ user)) ∧
    ((calculate_match rec user).matched
        ++ (calculate_match rec user).missing).Perm
      (rec.map pyLowerStr) := by
  refine ⟨?_, ?_, calculate_match_matched rec user,
    calculate_match_missing rec user, ?_⟩
  · intro h
    rw [calculate_match_percentage, if_pos (List.length_pos.mpr h)]
  · intro h
    subst h
    rw [calculate_match_percentage]
    simp
  · rw [calculate_match_matched, calculate_match_missing]
    exact List.filter_append_perm _ _

/-- Witness for C2 at the end-to-end scenario A inputs of the spec. -/
theorem calculate_match_spec_witness :
    (calculate_match ["Egg", "bread"] ["egg"]).matched = ["egg"] ∧
    (calculate_match ["Egg", "bread"] ["egg"]).percentage
      = pyRound1 (((calculate_match ["Egg", "bread"] ["egg"]).matched.length : ℚ)
          / ((["Egg", "bread"] : List String).length : ℚ) * 100) := by
  have h := calculate_match_spec ["Egg", "bread"] ["egg"]
  refine ⟨?_, h.1 (by decide)⟩
  rw [h.2.2.1]
  decide

/-- C8: For a user id with no recorded analytics, `get_user_analytics`
returns the zero-valued default rather than failing. -/
theorem get_user_analytics_default (db : AnalyticsDb) (u : String)
    (h : db.user_analytics u = none) :
    get_user_analytics db u = { search_count := 0, recent_searches := [] } := by
  simp [get_user_analytics, h]

/-- Witness for C8: the initial database knows no user. -/
theorem get_user_analytics_default_witness :
    get_user_analytics initialAnalyticsDb "u1"
      = { search_count := 0, recent_searches := [] } :=
  get_user_analytics_default initialAnalyticsDb "u1" rfl

/-- System-wide counters after a run of events: each counter grows by the
number of events of its kind. -/
theorem run_events_stats (events : List AnalyticsEvent) (db : AnalyticsDb) :
    (run_events events db).system_stats =
      { total_searches :=
          db.system_stats.total_searches + events.countP isSearchEvent
        total_users_created := db.system_stats.total_users_created
          + events.countP (fun e => e == AnalyticsEvent.userCreated)
        total_favorites := db.system_stats.total_favorites
          + events.countP (fun e => e == AnalyticsEvent.recipeFavorited) } := by
  induction events generalizing db with
  | nil => simp [run_events]
  | cons e es ih =>
    have hstep : run_events (e :: es) db = run_events es (handle_event e db) :=
      rfl
    rw [hstep, ih]
    cases e <;>
      simp [handle_event, on_user_created, on_recipe_favorited,
        on_recipe_search_performed, isSearchEvent, List.countP_cons] <;>
      omega

/-- C7: `on_user_created` increments exactly `total_users_created`,
`on_recipe_favorited` increments exactly `total_favorites`, and a run of
events containing 3 user creations, 2 favoritings and no searches yields
system analytics `{total_searches: 0, total_users_created: 3,
total_favorites: 2}`. -/
theorem analytics_counters_spec :
    (∀ db : AnalyticsDb,
      (on_user_created db).system_stats.total_users_created
          = db.system_stats.total_users_created + 1 ∧
      (on_user_created db).system_stats.total_searches
          = db.system_stats.total_searches ∧
      (on_user_created db).system_stats.total_favorites
          = db.system_stats.total_favorites ∧
      (on_user_created db).user_analytics = db.user_analytics) ∧
    (∀ db : AnalyticsDb,
      (on_recipe_favorited db).system_stats.total_favorites
          = db.system_stats.total_favorites + 1 ∧
      (on_recipe_favorited db).system_stats.total_searches
          = db.system_stats.total_searches ∧
      (on_recipe_favorited db).system_stats.total_users_created
          = db.system_stats.total_users_created ∧
      (on_recipe_favorited db).user_analytics = db.user_analytics) ∧
    (∀ events : List AnalyticsEvent,
      events.countP (fun e => e == AnalyticsEvent.userCreated) = 3 →
      events.countP (fun e => e == AnalyticsEvent.recipeFavorited) = 2 →
      events.countP isSearchEvent = 0 →
      get_system_analytics (run_events events initialAnalyticsDb)
        = { total_searches := 0, total_users_created := 3,
            total_favorites := 2 }) := by
  refine ⟨fun db => ⟨rfl, rfl, rfl, rfl⟩, fun db => ⟨rfl, rfl, rfl, rfl⟩,
    fun events h1 h2 h3 => ?_⟩
  simp [get_system_analytics, run_events_stats, initialAnalyticsDb, h1, h2, h3]

/-- Witness for C7: a concrete interleaving of 3 creations and 2
favoritings. -/
theorem analytics_counters_spec_witness :
    get_system_analytics (run_events
      [AnalyticsEvent.userCreated, AnalyticsEvent.recipeFavorited,
       AnalyticsEvent.userCreated, AnalyticsEvent.logOnly,
       AnalyticsEvent.recipeFavorited, AnalyticsEvent.userCreated]
      initialAnalyticsDb)
      = { total_searches := 0, total_users_created := 3,
          total_favorites := 2 } :=
  analytics_counters_spec.2.2 _ (by decide) (by decide) (by decide)

/-! ## Helper lemmas: search analytics -/

theorem get_user_after_search_same (u : String) (a : SearchSummary)
    (db : AnalyticsDb) :
    get_user_analytics (on_recipe_search_performed u a db) u
      = { search_count := (get_user_analytics db u).search_count + 1
          recent_searches :=
            if ((get_user_analytics db u).recent_searches ++ [a]).length > 10
            then ((get_user_analytics db u).recent_searches ++ [a]).tail
            else (get_user_analytics db u).recent_searches ++ [a] } := by
  simp [on_recipe_search_performed, get_user_analytics]

theorem get_user_after_search_other (u u' : String) (a : SearchSummary)
    (db : AnalyticsDb) (h : u ≠ u') :
    get_user_analytics (on_recipe_search_performed u' a db) u
      = get_user_analytics db u := by
  simp [on_recipe_search_performed, get_user_analytics, h]

theorem handle_event_recent_le (e : AnalyticsEvent) (db : AnalyticsDb)
    (u : String)
    (h : (get_user_analytics db u).recent_searches.length ≤ 10) :
    (get_user_analytics (handle_event e db) u).recent_searches.length ≤ 10 := by
  cases e with
  | userCreated =>
    simpa [handle_event, on_user_created, get_user_analytics] using h
  | recipeFavorited =>
    simpa [handle_event, on_recipe_favorited, get_user_analytics] using h
  | logOnly => exact h
  | searchPerformed u' a =>
    show (get_user_analytics (on_recipe_search_performed u' a db) u).recent_searches.length ≤ 10
    by_cases hu : u = u'
    · subst hu
      rw [get_user_after_search_same]
      dsimp only
      split_ifs with hl
      · simp only [List.length_tail, List.length_append, List.length_singleton]
        omega
      · simp only [List.length_append, List.length_singleton] at hl ⊢
        omega
    · rw [get_user_after_search_other u u' a db hu]
      exact h

theorem run_events_recent_le (events : List AnalyticsEvent) (db : AnalyticsDb)
    (h : ∀ u, (get_user_analytics db u).recent_searches.length ≤ 10) :
    ∀ u, (get_user_analytics (run_events events db) u).recent_searches.length
      ≤ 10 := by
  induction events generalizing db with
  | nil => exact h
  | cons e es ih =>
    exact ih (handle_event e db) (fun u => handle_event_recent_le e db u (h u))

theorem run_searches_same_user (u : String) (ss : List SearchSummary) :
    ∀ db : AnalyticsDb,
      (get_user_analytics db u).recent_searches.length ≤ 10 →
      get_user_analytics
          (run_events (ss.map (AnalyticsEvent.searchPerformed u)) db) u
        = { search_count := (get_user_analytics db u).search_count + ss.length
            recent_searches :=
              ((get_user_analytics db u).recent_searches ++ ss).drop
                ((get_user_analytics db u).recent_searches.length
                  + ss.length - 10) } := by
  induction ss with
  | nil =>
    intro db h
    simp [run_events, Nat.sub_eq_zero_of_le h]
  | cons a ss ih =>
    intro db h
    have hstep :
        run_events ((a :: ss).map (AnalyticsEvent.searchPerformed u)) db
          = run_events (ss.map (AnalyticsEvent.searchPerformed u))
              (on_recipe_search_performed u a db) := rfl
    have hb : (get_user_analytics (on_recipe_search_performed u a db) u
        ).recent_searches.length ≤ 10 :=
      handle_event_recent_le (.searchPerformed u a) db u h
    rw [hstep, ih _ hb, get_user_after_search_same]
    dsimp only
    by_cases hl :
        ((get_user_analytics db u).recent_searches ++ [a]).length > 10
    · have hr10 : (get_user_analytics db u).recent_searches.length = 10 := by
        simp only [List.length_append, List.length_singleton] at hl
        omega
      have hne : (get_user_analytics db u).recent_searches ≠ [] := by
        intro h0
        rw [h0] at hr10
        simp at hr10
      rw [if_pos hl, List.tail_append_of_ne_nil hne]
      have h1 : ((get_user_analytics db u).recent_searches.tail ++ [a]) ++ ss
          = (get_user_analytics db u).recent_searches.tail ++ (a :: ss) := by
        simp [List.append_assoc]
      have h2 : (get_user_analytics db u).recent_searches.tail ++ (a :: ss)
          = ((get_user_analytics db u).recent_searches ++ (a :: ss)).drop 1 := by
        rw [List.drop_append_of_le_length (by omega), List.drop_one]
      refine congrArg₂ UserAnalytics.mk
        (by simp only [List.length_cons]; omega) ?_
      rw [h1, h2, List.drop_drop]
      congr 1
      simp only [List.length_tail, List.length_append, List.length_singleton,
        List.length_cons, List.length_nil, hr10]
      omega
    · rw [if_neg hl]
      have h1 : ((get_user_analytics db u).recent_searches ++ [a]) ++ ss
          = (get_user_analytics db u).recent_searches ++ (a :: ss) := by
        simp [List.append_assoc]
      refine congrArg₂ UserAnalytics.mk
        (by simp only [List.length_cons]; omega) ?_
      rw [h1]
      congr 1
      simp only [List.length_append, List.length_singleton, List.length_cons,
        List.length_nil]
      omega

theorem run_searches_from_init (u : String) (ss : List SearchSummary) :
    get_user_analytics
        (run_events (ss.map (AnalyticsEvent.searchPerformed u))
          initialAnalyticsDb) u
      = { search_count := ss.length
          recent_searches := ss.drop (ss.length - 10) } := by
  have h := run_searches_same_user u ss initialAnalyticsDb
    (by simp [get_user_analytics, initialAnalyticsDb])
  simpa [get_user_analytics, initialAnalyticsDb] using h

/-- C6: `recent_searches` never exceeds 10 entries over any event run;
for a same-user run of search events the retained entries are exactly the
most recent ones (FIFO eviction of index 0); and after 11 searches for one
user, `search_count` is 11, the 10 most recent summaries remain, and the
first search summary (distinct timestamps) is gone. -/
theorem recent_searches_bounded_fifo :
    (∀ (events : List AnalyticsEvent) (u : String),
      (get_user_analytics (run_events events initialAnalyticsDb) u
        ).recent_searches.length ≤ 10) ∧
    (∀ (u : String) (ss : List SearchSummary),
      get_user_analytics
          (run_events (ss.map (AnalyticsEvent.searchPerformed u))
            initialAnalyticsDb) u
        = { search_count := ss.length
            recent_searches := ss.drop (ss.length - 10) }) ∧
    (∀ (u : String) (s1 : SearchSummary) (rest : List SearchSummary),
      rest.length = 10 →
      ((s1 :: rest).map SearchSummary.timestamp).Nodup →
      (get_user_analytics
          (run_events ((s1 :: rest).map (AnalyticsEvent.searchPerformed u))
            initialAnalyticsDb) u).search_count = 11 ∧
      (get_user_analytics
          (run_events ((s1 :: rest).map (AnalyticsEvent.searchPerformed u))
            initialAnalyticsDb) u).recent_searches = rest ∧
      s1 ∉ (get_user_analytics
          (run_events ((s1 :: rest).map (AnalyticsEvent.searchPerformed u))
            initialAnalyticsDb) u).recent_searches) := by
  refine ⟨?_, run_searches_from_init, ?_⟩
  · intro events u
    exact run_events_recent_le events initialAnalyticsDb
      (fun v => by simp [get_user_analytics, initialAnalyticsDb]) u
  · intro u s1 rest hlen hnodup
    rw [run_searches_from_init]
    have hdrop : (s1 :: rest).drop ((s1 :: rest).length - 10) = rest := by
      simp [hlen]
    have hmem : s1 ∉ rest := by
      intro hs
      simp only [List.map_cons, List.nodup_cons] at hnodup
      exact hnodup.1 (List.mem_map_of_mem SearchSummary.timestamp hs)
    refine ⟨by simp [hlen], hdrop, ?_⟩
    show s1 ∉ (s1 :: rest).drop ((s1 :: rest).length - 10)
    rw [hdrop]
    exact hmem

/-- Witness for C6: eleven searches for user `"u1"` with timestamps
`0,…,10`. -/
theorem recent_searches_bounded_fifo_witness :
    (get_user_analytics
        (run_events
          (((⟨0, ["egg"], 1⟩ : SearchSummary) ::
              (List.range 10).map (fun i => (⟨i + 1, [], 0⟩ : SearchSummary))
            ).map (AnalyticsEvent.searchPerformed "u1"))
          initialAnalyticsDb) "u1").search_count = 11 ∧
    (get_user_analytics
        (run_events
          (((⟨0, ["egg"], 1⟩ : SearchSummary) ::
              (List.range 10).map (fun i => (⟨i + 1, [], 0⟩ : SearchSummary))
            ).map (AnalyticsEvent.searchPerformed "u1"))
          initialAnalyticsDb) "u1").recent_searches
      = (List.range 10).map (fun i => (⟨i + 1, [], 0⟩ : SearchSummary)) ∧
    (⟨0, ["egg"], 1⟩ : SearchSummary) ∉
      (get_user_analytics
        (run_events
          (((⟨0, ["egg"], 1⟩ : SearchSummary) ::
              (List.range 10).map (fun i => (⟨i + 1, [], 0⟩ : SearchSummary))
            ).map (AnalyticsEvent.searchPerformed "u1"))
          initialAnalyticsDb) "u1").recent_searches :=
  recent_searches_bounded_fifo.2.2 "u1" _ _ (by decide) (by decide)

/-! ## Helper lemmas: tokenizer -/

theorem pySplit_replace (raw : List Char) :
    pySplit ',' (pyReplaceChar '\n' ',' raw) = splitCommasNewlines raw := by
  induction raw with
  | nil => rfl
  | cons c cs ih =>
    by_cases h : c = '\n'
    · subst h
      simp [pyReplaceChar, pySplit, splitCommasNewlines] at ih ⊢
      rw [ih]
    · by_cases h2 : c = ','
      · subst h2
        simp [pyReplaceChar, pySplit, splitCommasNewlines] at ih ⊢
        rw [ih]
      · simp [pyReplaceChar, pySplit, splitCommasNewlines, h, h2] at ih ⊢
        rw [ih]

theorem filter_map_eq_filterMap {α β : Type} (p : α → Bool) (f : α → β)
    (l : List α) :
    (l.filter p).map f
      = l.filterMap (fun a => if p a then some (f a) else none) := by
  induction l with
  | nil => rfl
  | cons a l ih =>
    by_cases h : p a <;> simp [h, ih]

/-- C9: `parse_ingredients` splits its input at every comma and newline,
strips each piece, drops the pieces that strip to nothing and lowercases
the rest, preserving order and duplicates; the empty input yields the
empty sequence. -/
theorem parse_ingredients_spec (raw : List Char) :
    parse_ingredients raw
      = (splitCommasNewlines raw).filterMap (fun piece =>
          if pyStrip piece = [] then none
          else some (pyLower (pyStrip piece))) ∧
    parse_ingredients [] = [] := by
  constructor
  · show ((pySplit ',' (pyReplaceChar '\n' ',' raw)).filter
        (fun ing => pyStrip ing ≠ [])).map (fun ing => pyLower (pyStrip ing))
      = _
    rw [pySplit_replace, filter_map_eq_filterMap]
    congr 1
    funext piece
    by_cases h : pyStrip piece = [] <;> simp [h]
  · rfl

/-- C10: A filter field present with a Python-falsy value (`max_time`
= 0, `skill_level`/`cuisine` = `""`, `dietary_tags` = `[]`) imposes no
constraint: `passes_filters` behaves exactly as if the field were absent. -/
theorem falsy_filter_fields_no_constraint (recipe : Recipe) (f : Filters) :
    passes_filters recipe (some { f with max_time := some 0 })
      = passes_filters recipe (some { f with max_time := none }) ∧
    passes_filters recipe (some { f with skill_level := some "" })
      = passes_filters recipe (some { f with skill_level := none }) ∧
    passes_filters recipe (some { f with dietary_tags := some [] })
      = passes_filters recipe (some { f with dietary_tags := none }) ∧
    passes_filters recipe (some { f with cuisine := some "" })
      = passes_filters recipe (some { f with cuisine := none }) := by
  rcases f with ⟨mt, sk, dt, cz⟩
  refine ⟨?_, ?_, ?_, ?_⟩ <;> simp [passes_filters]

/-! ## Helper lemmas: filter axes -/

theorem maxTimeAxis_iff (recipe : Recipe) (f : Filters) :
    maxTimeAxis recipe f
      = !decide (f.max_time.getD 0 ≠ 0 ∧
          recipe.total_time.getD 999 > f.max_time.getD 0) := by
  unfold maxTimeAxis
  cases h : f.max_time with
  | none => simp
  | some t =>
    by_cases ht : t = 0 <;> simp [ht, ← decide_not, not_lt]

theorem skillAxis_iff (recipe : Recipe) (f : Filters) :
    skillAxis recipe f
      = !decide (f.skill_level.getD "" ≠ "" ∧
          pyLowerStr (recipe.skill_level.getD "") ≠
            pyLowerStr (f.skill_level.getD "")) := by
  unfold skillAxis
  cases h : f.skill_level with
  | none => simp
  | some s =>
    by_cases hs : s = ""
    · simp [hs]
    · by_cases hab : pyLowerStr (recipe.skill_level.getD "") = pyLowerStr s <;>
        simp [hs, hab]

theorem dietAxis_iff (recipe : Recipe) (f : Filters) :
    dietAxis recipe f
      = !decide (f.dietary_tags.getD [] ≠ [] ∧
          ¬ (∀ required_tag ∈ (f.dietary_tags.getD []).map pyLowerStr,
            required_tag ∈ (recipe.dietary_tags.getD []).map pyLowerStr)) := by
  unfold dietAxis
  cases h : f.dietary_tags with
  | none => simp
  | some tags =>
    by_cases hs : tags = [] <;>
      simp [hs, ← decide_not, List.forall_mem_map]

theorem cuisineAxis_iff (recipe : Recipe) (f : Filters) :
    cuisineAxis recipe f
      = !decide (f.cuisine.getD "" ≠ "" ∧
          pyLowerStr (recipe.cuisine.getD "") ≠
            pyLowerStr (f.cuisine.getD "")) := by
  unfold cuisineAxis
  cases h : f.cuisine with
  | none => simp
  | some c =>
    by_cases hc : c = ""
    · simp [hc]
    · by_cases hab : pyLowerStr (recipe.cuisine.getD "") = pyLowerStr c <;>
        simp [hc, hab]

theorem passes_filters_chain (recipe : Recipe) (f : Filters) :
    passes_filters recipe (some f)
      = (!decide (f.max_time.getD 0 ≠ 0 ∧
            recipe.total_time.getD 999 > f.max_time.getD 0) &&
         !decide (f.skill_level.getD "" ≠ "" ∧
            pyLowerStr (recipe.skill_level.getD "") ≠
              pyLowerStr (f.skill_level.getD "")) &&
         !decide (f.dietary_tags.getD [] ≠ [] ∧
            ¬ (∀ required_tag ∈ (f.dietary_tags.getD []).map pyLowerStr,
              required_tag ∈ (recipe.dietary_tags.getD []).map pyLowerStr)) &&
         !decide (f.cuisine.getD "" ≠ "" ∧
            pyLowerStr (recipe.cuisine.getD "") ≠
              pyLowerStr (f.cuisine.getD ""))) := by
  show (if _ then false
    else if _ then false
    else if _ then false
    else if _ then false
    else true) = _
  split_ifs <;> simp_all
  tauto

/-- C5: `passes_filters` passes unconditionally with no filters; the
`max_time` axis rejects exactly when `total_time` (default 999) exceeds the
bound — in particular a recipe missing `total_time` fails every bounded
(`< 999`) `max_time` filter; `skill_level` and `cuisine` are
case-insensitive exact matches against a default of `""`; `dietary_tags`
requires every tag case-insensitively; and the axes are conjoined. -/
theorem passes_filters_axes (recipe : Recipe) (f : Filters) :
    passes_filters recipe none = true ∧
    passes_filters recipe (some f)
      = (maxTimeAxis recipe f && skillAxis recipe f && dietAxis recipe f &&
          cuisineAxis recipe f) ∧
    (∀ t : Int, t ≠ 0 → t < 999 → recipe.total_time = none →
      passes_filters recipe (some { max_time := some t }) = false) := by
  refine ⟨rfl, ?_, ?_⟩
  · rw [passes_filters_chain, maxTimeAxis_iff, skillAxis_iff, dietAxis_iff,
      cuisineAxis_iff]
  · intro t ht htlt htt
    simp [passes_filters, htt, ht, htlt]

/-- Witness for C5 at a recipe missing `total_time` and a 30-minute bound. -/
theorem passes_filters_axes_witness :
    passes_filters { id := 1, name := "t", ingredients := ["egg"] } none
        = true ∧
    passes_filters { id := 1, name := "t", ingredients := ["egg"] }
        (some { max_time := some 30 }) = false :=
  ⟨(passes_filters_axes { id := 1, name := "t", ingredients := ["egg"] }
      {}).1,
   (passes_filters_axes { id := 1, name := "t", ingredients := ["egg"] }
      {}).2.2 30 (by decide) (by decide) rfl⟩

theorem calculate_match_empty_user (rec : List String) :
    (calculate_match rec []).percentage = 0 := by
  rw [calculate_match_percentage, calculate_match_matched]
  split_ifs with h
  · simp [pyRound1_zero]
  · rfl

/-- C4: No result of `search_recipes` carries match percentage 0; with
an empty user token set the result list is empty. -/
theorem zero_match_absent (user : List String) (recipes : List Recipe)
    (filters : Option Filters) :
    (search_recipes user recipes filters).all
        (fun x => decide (x.match_percentage ≠ 0)) = true ∧
    search_recipes [] recipes filters = [] := by
  constructor
  · rw [List.all_eq_true]
    intro x hx
    have hx' : x ∈ matchResults user recipes filters := by
      simpa [search_recipes] using hx
    obtain ⟨r', hr', hp, hq, rfl⟩ := mem_matchResults.mp hx'
    simpa [mkSearchResult] using ne_of_gt hq
  · have hnil : matchResults [] recipes filters = [] := by
      rw [matchResults, List.filterMap_eq_nil_iff]
      intro r hr
      by_cases hp : passes_filters r filters
      · simp [hp, calculate_match_empty_user]
      · simp [hp]
    rw [search_recipes, hnil, List.mergeSort_nil]

/-- C3: A catalog recipe (with a unique id) that fails the active
filters is absent from the `search_recipes` results, regardless of its match
percentage. -/
theorem filtered_recipe_absent (user : List String) (recipes : List Recipe)
    (filters : Option Filters) (r : Recipe)
    (hnodup : (recipes.map Recipe.id).Nodup) (hr : r ∈ recipes)
    (hfail : passes_filters r filters = false) :
    (search_recipes user recipes filters).all
        (fun x => decide (x.id ≠ r.id)) = true := by
  rw [List.all_eq_true]
  intro x hx
  have hx' : x ∈ matchResults user recipes filters := by
    simpa [search_recipes] using hx
  obtain ⟨r', hr', hp, hq, rfl⟩ := mem_matchResults.mp hx'
  simp only [mkSearchResult, decide_eq_true_eq, ne_eq]
  intro hid
  have : r' = r := List.inj_on_of_nodup_map hnodup hr' hr hid
  rw [this, hfail] at hp
  exact Bool.false_ne_true hp

/-- Witness for C3: a 100%-matching recipe rejected by a `max_time`
filter. -/
theorem filtered_recipe_absent_witness :
    (search_recipes ["egg"]
        [{ id := 1, name := "t", ingredients := ["egg"],
           total_time := some 10 }]
        (some { max_time := some 5 })).all
      (fun x => decide (x.id ≠
        ({ id := 1, name := "t", ingredients := ["egg"],
           total_time := some 10 } : Recipe).id)) = true :=
  filtered_recipe_absent ["egg"] _ _ _ (by decide) (by decide) (by decide)

/-! ## Helper lemmas: ranking order -/

theorem resultLe_trans (a b c : SearchResult) (hab : resultLe a b)
    (hbc : resultLe b c) : resultLe a c := by
  simp only [resultLe, decide_eq_true_eq] at *
  exact le_trans hbc hab

theorem resultLe_total (a b : SearchResult) : resultLe a b || resultLe b a := by
  simp only [resultLe, Bool.or_eq_true, decide_eq_true_eq]
  exact le_total b.match_percentage a.match_percentage

/-- C1: `search_recipes` returns results ordered by `match_percentage`
descending, and the sort is stable: results of equal percentage appear in
the order their recipes occupy in the input catalog (the order of
`matchResults`, the catalog-ordered pre-sort list). -/
theorem search_recipes_sorted_stable (user : List String)
    (recipes : List Recipe) (filters : Option Filters) :
    (search_recipes user recipes filters).Pairwise
        (fun a b => b.match_percentage ≤ a.match_percentage) ∧
    ∀ p : ℚ,
      (search_recipes user recipes filters).filter
          (fun x => decide (x.match_percentage = p))
        = (matchResults user recipes filters).filter
          (fun x => decide (x.match_percentage = p)) := by
  constructor
  · have h := List.sorted_mergeSort resultLe_trans resultLe_total
      (matchResults user recipes filters)
    exact h.imp (fun hab => by

      simpa [resultLe] using hab)
  · intro p
    have hfil : List.Sublist
        ((matchResults user recipes filters).filter
          (fun x => decide (x.match_percentage = p)))
        (matchResults user recipes filters) :=
      List.filter_sublist _
    have hpair : ((matchResults user recipes filters).filter
          (fun x => decide (x.match_percentage = p))).Pairwise
        (fun a b => resultLe a b) := by
      apply List.pairwise_of_forall_mem_list
      intro a ha b hb
      have hpa := of_decide_eq_true (List.mem_filter.mp ha).2
      have hpb := of_decide_eq_true (List.mem_filter.mp hb).2
      simp [resultLe, hpa, hpb]
    have hsub := List.sublist_mergeSort resultLe_trans resultLe_total
      hpair hfil
    have h3 := hsub.filter (fun x => decide (x.match_percentage = p))
    rw [List.filter_filter] at h3
    simp only [Bool.and_self] at h3
    have hperm : (((matchResults user recipes filters).mergeSort
            resultLe).filter (fun x => decide (x.match_percentage = p))).Perm
        ((matchResults user recipes filters).filter
          (fun x => decide (x.match_percentage = p))) :=
      (List.mergeSort_perm (matchResults user recipes filters)
        resultLe).filter _
    exact (h3.eq_of_length hperm.length_eq.symm).symm
